import Mathlib

/-!
Verification development for tools/gui_vm_manager.py of the bemu repository.

The Python module is embedded shallowly:
* paths are strings; the filesystem is a pair of lists (paths that exist,
  paths that are regular files) carried in a HostEnv record;
* Tkinter variables become a Fields record of raw field values; a Tk
  IntVar whose text is not an integer raises TclError on get, modelled as
  an Option Int that is none;
* reading a descriptor file is modelled by a FileRead value: either the
  open call fails, or a list of lines is delivered, optionally followed by
  an OSError raised mid-iteration (errors="ignore" suppresses decode
  errors inside the line iterator, but an OSError can still occur);
* subprocess spawning and message boxes become explicit outcome values
  and event lists.
-/

set_option autoImplicit false

/-- Whether the first list is a prefix of the second, by plain structural
recursion (kept reducible for kernel evaluation of concrete inputs). -/
def listIsPrefix : List Char → List Char → Bool
  | [], _ => true
  | _ :: _, [] => false
  | p :: ps, c :: cs => if p = c then listIsPrefix ps cs else false

/-- Python s.startswith(pre). -/
def strStartsWith (s pre : String) : Bool :=
  listIsPrefix pre.toList s.toList

/-- Python s.endswith(suf). -/
def strEndsWith (s suf : String) : Bool :=
  listIsPrefix suf.toList.reverse s.toList.reverse

/-- Python (c in s) for a single character. -/
def strContainsChar (s : String) (c : Char) : Bool :=
  s.toList.any (fun x => x = c)

/-- Python str.strip() with no argument: remove leading and trailing
whitespace (the tool only meets ASCII whitespace). -/
def pyStrip (s : String) : String :=
  String.mk (((s.toList.dropWhile Char.isWhitespace).reverse.dropWhile Char.isWhitespace).reverse)

/-- Python str.lower() (the keys involved are ASCII). -/
def strToLower (s : String) : String :=
  String.mk (s.toList.map Char.toLower)

/-- Split a character list on a separator character, keeping empty groups,
like Python str.split(sep). -/
def splitOnChar (sep : Char) : List Char → List (List Char)
  | [] => [[]]
  | c :: rest =>
    match splitOnChar sep rest with
    | [] => [[]]
    | g :: gs => if c = sep then [] :: g :: gs else (c :: g) :: gs

/-- The slash-separated components of a path string. -/
def slashComponents (p : String) : List String :=
  (splitOnChar '/' p.toList).map String.mk

/-- Join strings with a separator, like Python sep.join(xs). -/
def joinWith (sep : String) : List String → String
  | [] => ""
  | [x] => x
  | x :: y :: xs => x ++ sep ++ joinWith sep (y :: xs)

/-- Decimal digit run to a number: none on an empty run or a non-digit. -/
def decDigitsAux : Nat → List Char → Option Nat
  | acc, [] => some acc
  | acc, c :: cs =>
    if c.isDigit then decDigitsAux (acc * 10 + (c.toNat - 48)) cs else none

/-- Python all-digit string to Nat: none when empty or not all digits. -/
def strToNatOpt (s : String) : Option Nat :=
  match s.toList with
  | [] => none
  | c :: cs => decDigitsAux 0 (c :: cs)

/-- Index of the last '.' in a character list, if any. -/
def lastIndexOfDot : List Char → Option Nat
  | [] => none
  | c :: cs =>
    match lastIndexOfDot cs with
    | some i => some (i + 1)
    | none => if c = '.' then some 0 else none

/-- Final component of a path (Python pathlib name): text after the last slash. -/
def pathCompName (p : String) : String :=
  (slashComponents p).getLastD p

/-- Python pathlib suffix of a path: the extension of the final component.
CPython returns name.drop i for the last dot index i when 0 < i < len - 1,
and the empty string otherwise (so ".bashrc" and "a." have no suffix). -/
def pathSuffix (p : String) : String :=
  let cs := (pathCompName p).toList
  match lastIndexOfDot cs with
  | some i => if 0 < i ∧ i < cs.length - 1 then String.mk (cs.drop i) else ""
  | none => ""

/-- Python pathlib joining d / n for a directory and a bare file name.
Joining onto "." drops the leading "." component and joining onto the
root keeps a single slash, as pathlib does. -/
def joinPath (d n : String) : String :=
  if d = "." then n
  else if d = "/" then "/" ++ n
  else d ++ "/" ++ n

/-- Python pathlib parent of a path: drop the final component. -/
def parentDir (p : String) : String :=
  match (slashComponents p).dropLast with
  | [] => "."
  | [""] => "/"
  | cs => joinWith "/" cs

/-- Python Path(s) construction applied to a raw string: pathlib normalizes
the empty string to the current directory ".". -/
def pathOfString (s : String) : String :=
  if s = "" then "." else s

/-- Python truthiness of a pathlib.Path value: Path defines neither a bool
nor a len override, so every Path object is truthy, including Path("."). -/
def pathTruthy (_p : String) : Bool :=
  true

/-- Python str.strip(c) for a single character: remove all leading and
trailing occurrences of that character. -/
def stripCharEnds (c : Char) (s : String) : String :=
  String.mk (((s.toList.dropWhile (· = c)).reverse.dropWhile (· = c)).reverse)

/-- Python line.split(sep, 1) on "=": text before the first '=' and the
remainder after it. Only called when the line contains an '='. -/
def splitFirstEq (s : String) : String × String :=
  match s.toList.findIdx? (· = '=') with
  | some i => (String.mk (s.toList.take i), String.mk (s.toList.drop (i + 1)))
  | none => (s, "")

/-- Python int(str) for the strings this tool meets: optional surrounding
whitespace, an optional sign, then decimal digits (digit separators and
non-ASCII digits are out of scope). -/
def pyIntOfString (s : String) : Option Int :=
  let t := pyStrip s
  if strStartsWith t "-" then (strToNatOpt (String.mk (t.toList.drop 1))).map (fun n => -(n : Int))
  else if strStartsWith t "+" then (strToNatOpt (String.mk (t.toList.drop 1))).map (fun n => (n : Int))
  else (strToNatOpt t).map (fun n => (n : Int))

/-- Host facts the Python module consults: which paths exist, which paths
are regular files, the home directory, the SEABIOS_DIR environment value
(empty when unset, as os.environ.get returns the "" default), and the
directory two levels above the script (used for the bundled pc-bios dir). -/
structure HostEnv where
  fs : List String
  filePaths : List String
  home : String
  seabiosDir : String
  srcRoot : String
deriving DecidableEq, Repr

/-- Outcome of opening and iterating a descriptor file: the open call
fails, or the listed lines are delivered in order and, when midErr is
set, an OSError is raised after the last delivered line. An error that
interrupts reading earlier is represented by listing only the lines
actually delivered before it. -/
inductive FileRead where
  | openFail
  | fileLines (ls : List String) (midErr : Bool)
deriving DecidableEq, Repr

/-- The dict built by the VMX parser: the recognized keys. Absent keys are
none, matching keys simply missing from the Python dict. -/
structure Descriptor where
  memsize : Option String := none
  numvcpus : Option String := none
  disk : Option String := none
deriving DecidableEq, Repr

/-- The empty descriptor: the dict with no keys set. -/
def Descriptor.empty : Descriptor := {}

/-- Allow-list of disk image extensions accepted by the VMX parser. -/
def ALLOWED_DISK_EXTS : List String := [".vmdk", ".qcow2", ".img", ".raw"]

def DEFAULT_MEMORY : Int := 2048
def DEFAULT_CPU_COUNT : Int := 2
def DEFAULT_CPU_NAME : String := "v4004"
def DEFAULT_BIOS_NAME : String := "bios.bin"
def DEFAULT_MACHINE : String := "q35"

/-- One stripped VMX line reduced to a key and an unquoted value: skip
blank lines, comment lines and lines without '=', split on the first '=',
trim the key, and trim and unquote the value. -/
def lineKV (line : String) : Option (String × String) :=
  let l := pyStrip line
  if l = "" then none
  else if strStartsWith l "#" then none
  else if !(strContainsChar l '=') then none
  else
    let kv := splitFirstEq l
    some (pyStrip kv.1, stripCharEnds '"' (pyStrip kv.2))

/-- The candidate disk path a fileName line contributes, if any: key ends
in ".fileName", value non-empty, relative values resolved against the
descriptor directory, extension (lower-cased) on the allow-list, and the
resolved path exists. resolve() is modelled as syntactic joining, which is
adequate because existence is looked up in the explicit fs list. -/
def diskMatch (fs : List String) (dir : String) (key value : String) : Option String :=
  if strEndsWith key ".fileName" && !(value = "") then
    let candidate := if strStartsWith value "/" then value else joinPath dir value
    if strToLower (pathSuffix candidate) ∈ ALLOWED_DISK_EXTS && candidate ∈ fs then
      some candidate
    else none
  else none

/-- The per-line disk extraction, mirroring the parser's branch order: a
memsize or numvcpus line never contributes a disk path. -/
def lineDisk (fs : List String) (dir : String) (line : String) : Option String :=
  match lineKV line with
  | none => none
  | some (k, v) =>
    if strToLower k = "memsize" then none
    else if strToLower k = "numvcpus" then none
    else diskMatch fs dir k v

/-- The parser loop over the delivered lines: accumulate memsize and
numvcpus entries, and stop at the first line whose fileName value passes
the disk checks (the break in the source), returning the data dict built
so far together with the disk path found, if any. -/
def parseLines (fs : List String) (dir : String) : Descriptor → List String → Descriptor × Option String
  | d, [] => (d, none)
  | d, line :: rest =>
    match lineKV line with
    | none => parseLines fs dir d rest
    | some (k, v) =>
      if strToLower k = "memsize" then parseLines fs dir { d with memsize := some v } rest
      else if strToLower k = "numvcpus" then parseLines fs dir { d with numvcpus := some v } rest
      else
        match diskMatch fs dir k v with
        | some p => (d, some p)
        | none => parseLines fs dir d rest

/-- Writing the found disk path into the data dict (the final
data["disk"] assignment), or leaving the dict as is when none was found. -/
def withDiskEntry (d : Descriptor) (o : Option String) : Descriptor :=
  match o with
  | some pth => { d with disk := some pth }
  | none => d

/-- The VMX parser (parse_vmx_file in the source). An OSError or
UnicodeDecodeError makes the function return the data dict accumulated so
far (the except branch returns data, skipping the disk assignment); a
normal or early (break) exit assigns the found disk path into the dict. -/
def parse_vmx_file (fs : List String) (vmxPath : String) (read : FileRead) : Descriptor :=
  match read with
  | .openFail => Descriptor.empty
  | .fileLines ls midErr =>
    let r := parseLines fs (parentDir vmxPath) Descriptor.empty ls
    if midErr && r.2.isNone then r.1
    else withDiskEntry r.1 r.2

/-- The fixed candidate directory list DEFAULT_BIOS_DIRS, in source order:
the bundled pc-bios directory, Path(SEABIOS_DIR value), the per-user
share directory, then the two system directories. An unset SEABIOS_DIR
yields Path("") which pathlib normalizes to ".". -/
def DEFAULT_BIOS_DIRS (env : HostEnv) : List String :=
  [ joinPath env.srcRoot "pc-bios",
    pathOfString env.seabiosDir,
    joinPath (joinPath (joinPath env.home ".local") "share") "seabios",
    "/usr/share/seabios",
    "/usr/local/share/seabios" ]

/-- The firmware locator (find_default_bios in the source): walk the
candidate directories in order, skip a directory only if it is falsy as a
Path (which never happens), and return the first dir/bios.bin that is a
regular file. -/
def find_default_bios (env : HostEnv) : Option String :=
  (DEFAULT_BIOS_DIRS env).findSome? (fun dir =>
    if !(pathTruthy dir) then none
    else
      let candidate := joinPath dir DEFAULT_BIOS_NAME
      if candidate ∈ env.filePaths then some candidate else none)

/-- Modelled from the spec: the firmware locator as the specification
states it, where the empty or unset directory entry (the raw SEABIOS_DIR
value) is skipped without error and without probing it. Written from the
spec's words for comparison with find_default_bios. -/
def find_default_bios_spec (env : HostEnv) : Option String :=
  ([ joinPath env.srcRoot "pc-bios",
     env.seabiosDir,
     joinPath (joinPath (joinPath env.home ".local") "share") "seabios",
     "/usr/share/seabios",
     "/usr/local/share/seabios" ]).findSome? (fun dir =>
    if dir = "" then none
    else
      let candidate := joinPath dir DEFAULT_BIOS_NAME
      if candidate ∈ env.filePaths then some candidate else none)

/-- The validated launch configuration (the VMConfig dataclass). Paths are
strings; memory and vCPU count are the Python ints read from the Tk
variables. -/
structure VMConfig where
  binary : String
  disk_image : Option String
  memory_mb : Int
  cpu_count : Int
  cpu_model : String
  bios : Option String
  machine : String
deriving DecidableEq, Repr

/-- VMConfig.build_command: the fixed-order argument list, mirroring the
source's successive list extensions. The drive argument renders the
f-string file=...,if=virtio,format=qcow2; the suffix comparison against
".qcow2" is case-sensitive exactly as in the source. -/
def VMConfig.build_command (c : VMConfig) : List String :=
  let cmd := [c.binary, "-machine", c.machine, "-m", toString c.memory_mb,
              "-smp", toString c.cpu_count, "-cpu", c.cpu_model]
  let cmd :=
    match c.bios with
    | some b => cmd ++ ["-bios", b]
    | none => cmd
  match c.disk_image with
  | some d =>
    if pathSuffix d = ".qcow2" then
      cmd ++ ["-drive", "file=" ++ d ++ ",if=virtio,format=qcow2"]
    else
      cmd ++ ["-hda", d]
  | none => cmd

/-- The argument list before any disk attachment: binary, machine, memory,
smp, cpu, then the optional bios pair. -/
def buildCommandBase (c : VMConfig) : List String :=
  [c.binary, "-machine", c.machine, "-m", toString c.memory_mb,
   "-smp", toString c.cpu_count, "-cpu", c.cpu_model]
  ++ (match c.bios with
      | some b => ["-bios", b]
      | none => [])

/-- Modelled from the spec: the disk attachment the Command Builder
section describes, written from the spec's words for comparison with
VMConfig.build_command. A qcow2 image gets the virtio block-device driver
argument pair naming the format; any other present image gets the legacy
disk-slot flag; an absent image gets no argument. -/
def diskAttachmentSpec : Option String → List String
  | none => []
  | some d =>
    if pathSuffix d = ".qcow2" then
      ["-drive", "file=" ++ d ++ ",if=virtio,format=qcow2"]
    else
      ["-hda", d]

/-- The raw form field values the manager reads when building a
configuration. memoryVar and cpusVar are none when the Tk IntVar raises
on get (non-integer text in the widget). -/
structure Fields where
  binaryVar : String
  diskVar : String
  memoryVar : Option Int
  cpusVar : Option Int
  cpuModelVar : String
  machineVar : String
  biosVar : String
deriving DecidableEq, Repr

/-- Python os.path.expanduser on a Path: a leading "~" component is
replaced by the home directory (the "~user" form is out of scope). -/
def expandUser (home : String) (p : String) : String :=
  if p = "~" then home
  else if strStartsWith p "~/" then home ++ String.mk (p.toList.drop 1)
  else p

/-- Result of building a configuration: a validated VMConfig, or the
title and message of the error dialog shown (the early return None). -/
inductive ConfigResult where
  | ok (c : VMConfig)
  | err (title msg : String)
deriving DecidableEq, Repr

/-- The machine string of a successfully built configuration. -/
def configMachine : ConfigResult → Option String
  | .ok c => some c.machine
  | .err _ _ => none

/-- The cpu model string of a successfully built configuration. -/
def configCpuModel : ConfigResult → Option String
  | .ok c => some c.cpu_model
  | .err _ _ => none

/-- The memory of a successfully built configuration. -/
def configMemory : ConfigResult → Option Int
  | .ok c => some c.memory_mb
  | .err _ _ => none

/-- The disk image of a successfully built configuration. -/
def configDisk : ConfigResult → Option (Option String)
  | .ok c => some c.disk_image
  | .err _ _ => none

/-- The bios check and final construction stage of build_config: a
non-empty bios entry must exist after expanduser, then the VMConfig is
assembled; the cpu model falls back to the default when blank after
strip, the machine falls back only when the raw string is empty (no strip
in the source). -/
def buildConfigBios (env : HostEnv) (f : Fields) (binary : String)
    (disk : Option String) (memory_mb cpus : Int) : ConfigResult :=
  let bios := if f.biosVar = "" then none else some (expandUser env.home f.biosVar)
  match bios with
  | some b =>
    if !(b ∈ env.fs) then
      .err "Invalid BIOS" ("SeaBIOS image '" ++ b ++ "' was not found")
    else
      .ok { binary := binary, disk_image := disk, memory_mb := memory_mb,
            cpu_count := cpus,
            cpu_model := if pyStrip f.cpuModelVar = "" then DEFAULT_CPU_NAME else pyStrip f.cpuModelVar,
            bios := some b,
            machine := if f.machineVar = "" then DEFAULT_MACHINE else f.machineVar }
  | none =>
    .ok { binary := binary, disk_image := disk, memory_mb := memory_mb,
          cpu_count := cpus,
          cpu_model := if pyStrip f.cpuModelVar = "" then DEFAULT_CPU_NAME else pyStrip f.cpuModelVar,
          bios := none,
          machine := if f.machineVar = "" then DEFAULT_MACHINE else f.machineVar }

/-- VMManager build_config: validate the raw fields and construct a
VMConfig, mirroring the source's order of checks. Memory and vCPU reads
come first (a TclError or ValueError there is the integer error); the
binary must be non-blank after strip, and must exist when it contains a
path separator (os.sep is "/" on the modelled posix host, os.altsep is
None); a non-empty disk entry must exist after expanduser; the bios check
and construction follow in buildConfigBios. -/
def build_config (env : HostEnv) (f : Fields) : ConfigResult :=
  match f.memoryVar, f.cpusVar with
  | some memory_mb, some cpus =>
    let binary_value := pyStrip f.binaryVar
    if binary_value = "" then
      .err "Invalid Configuration" "Please choose a BEMU binary"
    else
      let binary := expandUser env.home binary_value
      if strContainsChar binary_value '/' && !(binary ∈ env.fs) then
        .err "Invalid Configuration" ("BEMU binary '" ++ binary ++ "' does not exist")
      else
        let disk := if f.diskVar = "" then none else some (expandUser env.home f.diskVar)
        match disk with
        | some d =>
          if !(d ∈ env.fs) then
            .err "Invalid Disk" ("Disk image '" ++ d ++ "' does not exist")
          else
            buildConfigBios env f binary (some d) memory_mb cpus
        | none => buildConfigBios env f binary none memory_mb cpus
  | _, _ => .err "Invalid Configuration" "Memory and CPU counts must be integers"

/-- A child process handle: its pid and the poll() result, where none
means the process is still running. -/
structure ChildProc where
  pid : Nat
  exitCode : Option Int
deriving DecidableEq, Repr

/-- The manager's mutable state: the optional process handle, the stop
event flag, the raw form fields, and the status label text. -/
structure MgrState where
  vmProcess : Option ChildProc
  stopEventSet : Bool
  fields : Fields
  statusVar : String
deriving DecidableEq, Repr

/-- The running test the source repeats: a process handle is held and its
poll() returns None. A Popen object is always truthy in Python, so the
conjunction reduces to handle present and not yet exited. -/
def procRunning (s : MgrState) : Bool :=
  match s.vmProcess with
  | some p => p.exitCode.isNone
  | none => false

/-- Signals the stop path can deliver to the child: the graceful SIGINT
and the forceful SIGTERM sent by Popen.terminate. -/
inductive Sig where
  | sigint
  | sigterm
deriving DecidableEq, Repr

/-- Observable actions of the manager: dialogs, a spawned process with
its argument list, a delivered signal, scheduling of the finalize-stop
callback, and the start of the monitor thread. -/
inductive Event where
  | info (title msg : String)
  | showError (title msg : String)
  | spawn (cmd : List String)
  | signal (sg : Sig)
  | scheduleFinalize
  | monitorStart
deriving DecidableEq, Repr

/-- Outcome of the subprocess.Popen call, supplied by the host: a live
process, a FileNotFoundError, or some other exception with its text. -/
inductive SpawnOutcome where
  | ok (p : ChildProc)
  | fileNotFound
  | failure (msg : String)
deriving DecidableEq, Repr

/-- VMManager.start_vm: reject when a process is held and still running;
otherwise build the configuration (an invalid one only shows its dialog
and leaves everything untouched), then spawn. On success the handle is
replaced, the stop event cleared and the monitor thread started; on a
spawn exception the assignment never happens, so the old handle is kept
and only the status changes. -/
def start_vm (env : HostEnv) (s : MgrState) (outcome : SpawnOutcome) : MgrState × List Event :=
  if procRunning s then
    (s, [Event.info "VM Running" "The VM is already running"])
  else
    match build_config env s.fields with
    | .err t m => (s, [Event.showError t m])
    | .ok config =>
      let command := config.build_command
      let s1 := { s with statusVar := "Starting VM..." }
      match outcome with
      | .ok p =>
        ({ s1 with vmProcess := some p, stopEventSet := false, statusVar := "VM running" },
         [Event.spawn command, Event.monitorStart])
      | .fileNotFound =>
        ({ s1 with statusVar := "Launch failed" },
         [Event.showError "Launch Failed" ("Could not find executable '" ++ config.binary ++ "'")])
      | .failure msg =>
        ({ s1 with statusVar := "Launch failed" },
         [Event.showError "Launch Failed" ("Failed to launch VM: " ++ msg)])

/-- VMManager.stop_vm: a no-op with a status message when nothing is
running; otherwise set the status and the stop event and send SIGINT,
falling back to Popen.terminate (SIGTERM) when send_signal raises; in
both cases the finally clause schedules the finalize-stop callback
100 ms later. sigintOk tells whether send_signal succeeded. -/
def stop_vm (s : MgrState) (sigintOk : Bool) : MgrState × List Event :=
  if !(procRunning s) then
    ({ s with statusVar := "No VM running" }, [])
  else
    let s1 := { s with statusVar := "Stopping VM...", stopEventSet := true }
    if sigintOk then
      (s1, [Event.signal Sig.sigint, Event.scheduleFinalize])
    else
      (s1, [Event.signal Sig.sigterm, Event.scheduleFinalize])

/-- VMManager finalize_stop: when the process still runs, reschedule
itself for another 100 ms and do nothing else; once it has exited, set
the stopped status. -/
def finalize_stop (s : MgrState) : MgrState × List Event :=
  if procRunning s then
    (s, [Event.scheduleFinalize])
  else
    ({ s with statusVar := "VM stopped" }, [])

/-- Run the finalize-stop callback n times, collecting events. The child
process state inside s is frozen, which models a child that never exits
during those n grace intervals. -/
def iterFinalize : MgrState → Nat → MgrState × List Event
  | s, 0 => (s, [])
  | s, n + 1 =>
    let r1 := finalize_stop s
    let r2 := iterFinalize r1.1 n
    (r2.1, r1.2 ++ r2.2)

/-- A stop request followed by n firings of the scheduled finalize-stop
callback while the child stays alive. -/
def stopRun (s : MgrState) (sigintOk : Bool) (n : Nat) : MgrState × List Event :=
  let r1 := stop_vm s sigintOk
  let r2 := iterFinalize r1.1 n
  (r2.1, r1.2 ++ r2.2)

/-- The signals among a list of events, in delivery order. -/
def signalsSent (evs : List Event) : List Sig :=
  evs.filterMap (fun e =>
    match e with
    | Event.signal sg => some sg
    | _ => none)

/-- One numeric field merge in apply_vmx_config: a present descriptor
entry overwrites the current widget value when it parses as an int; a
ValueError is swallowed and leaves the current value (descriptor input is
advisory). -/
def mergeNumeric (cur : Option Int) (raw : Option String) : Option Int :=
  match raw with
  | some s =>
    match pyIntOfString s with
    | some v => some v
    | none => cur
  | none => cur

/-- VMManager apply_vmx_config: parse the descriptor, set the disk field
from the parsed disk or fall back to the VMX path itself, merge the
numeric descriptor entries, and compose the status summary string.
Returns the updated fields and the status text. -/
def apply_vmx_config (env : HostEnv) (f : Fields) (vmxPath : String) (read : FileRead) :
    Fields × String :=
  let vmx_data := parse_vmx_file env.fs vmxPath read
  let f1 :=
    match vmx_data.disk with
    | some disk => { f with diskVar := disk }
    | none => { f with diskVar := vmxPath }
  let f2 := { f1 with memoryVar := mergeNumeric f1.memoryVar vmx_data.memsize }
  let f3 := { f2 with cpusVar := mergeNumeric f2.cpusVar vmx_data.numvcpus }
  let details :=
    (match vmx_data.disk with
     | some disk => ["disk: " ++ pathCompName disk]
     | none => [])
    ++ (match vmx_data.memsize with
        | some m => ["memory: " ++ m ++ " MB"]
        | none => [])
    ++ (match vmx_data.numvcpus with
        | some nv => ["vCPUs: " ++ nv]
        | none => [])
  let status :=
    if details = [] then "Loaded VMX configuration"
    else "Loaded VMX (" ++ joinWith ", " details ++ ")"
  (f3, status)

/-- Host with nothing on disk, used as a concrete instantiation. -/
def hostEmpty : HostEnv :=
  { fs := [], filePaths := [], home := "/home/user", seabiosDir := "", srcRoot := "/repo" }

/-- Host with only a bios.bin in the process's current directory, and an
unset SEABIOS_DIR. -/
def hostCwdBios : HostEnv :=
  { fs := [], filePaths := ["bios.bin"], home := "/home/user", seabiosDir := "", srcRoot := "/repo" }

/-- C5: for every VMConfig, the command is the fixed base (binary,
machine, memory, smp, cpu, optional bios pair) followed by exactly the
disk attachment the spec describes: a virtio drive pair naming the qcow2
format for a qcow2 image, the legacy -hda flag with the path for any
other present image, and nothing for an absent image. -/
theorem c5_disk_attachment (c : VMConfig) :
    c.build_command = buildCommandBase c ++ diskAttachmentSpec c.disk_image := by
  unfold VMConfig.build_command buildCommandBase diskAttachmentSpec
  cases c.bios <;> cases c.disk_image <;> (try simp) <;> (try (split <;> simp))

/-- C9 counterexample: with SEABIOS_DIR unset and a bios.bin present in
the current directory, the locator returns ./bios.bin: the empty entry is
not skipped but normalized to "." and probed, while the locator the spec
describes (skipping the unset entry) returns none. -/
theorem c9_counterexample :
    find_default_bios hostCwdBios = some "bios.bin"
    ∧ find_default_bios_spec hostCwdBios = none := by
  exact ⟨rfl, rfl⟩

/-- Probing one candidate directory for the expected firmware name. -/
def probeBios (env : HostEnv) (dir : String) : Option String :=
  if joinPath dir DEFAULT_BIOS_NAME ∈ env.filePaths then
    some (joinPath dir DEFAULT_BIOS_NAME)
  else none

/-- The locator walks the fixed directory list with probeBios; the falsy
guard in the source never fires, so it is definitionally the plain probe. -/
theorem find_default_bios_eq_findSome (env : HostEnv) :
    find_default_bios env = (DEFAULT_BIOS_DIRS env).findSome? (probeBios env) := rfl

/-- findSome? returns none on a list all of whose probes miss. -/
theorem findSome_eq_none_of_misses {α β : Type} (f : α → Option β) :
    ∀ l : List α, (∀ a ∈ l, f a = none) → l.findSome? f = none := by
  intro l
  induction l with
  | nil => intro _; rfl
  | cons a as ih =>
    intro h
    have ha := h a (by simp)
    show (match f a with | some b => some b | none => as.findSome? f) = none
    rw [ha]
    exact ih (fun x hx => h x (by simp [hx]))

/-- findSome? skips a missing prefix. -/
theorem findSome_append_of_none {α β : Type} (f : α → Option β) (l₁ l₂ : List α)
    (h : ∀ a ∈ l₁, f a = none) :
    (l₁ ++ l₂).findSome? f = l₂.findSome? f := by
  induction l₁ with
  | nil => rfl
  | cons a as ih =>
    have ha := h a (by simp)
    show (match f a with | some b => some b | none => (as ++ l₂).findSome? f) = l₂.findSome? f
    rw [ha]
    exact ih (fun x hx => h x (by simp [hx]))

/-- C9 amended: the locator returns dir/bios.bin for the first directory
of the fixed priority list whose candidate is a regular file (every
earlier directory's candidate missing), and none when every candidate
misses. No entry is ever skipped: the entry derived from an unset
SEABIOS_DIR normalizes to the current directory "." and is probed like
any other member of the list. -/
theorem c9_amended (env : HostEnv) :
    (∀ pre dir post, DEFAULT_BIOS_DIRS env = pre ++ dir :: post →
      (∀ d ∈ pre, joinPath d DEFAULT_BIOS_NAME ∉ env.filePaths) →
      joinPath dir DEFAULT_BIOS_NAME ∈ env.filePaths →
      find_default_bios env = some (joinPath dir DEFAULT_BIOS_NAME))
    ∧ ((∀ d ∈ DEFAULT_BIOS_DIRS env, joinPath d DEFAULT_BIOS_NAME ∉ env.filePaths) →
      find_default_bios env = none) := by
  constructor
  · intro pre dir post hsplit hmiss hhit
    rw [find_default_bios_eq_findSome, hsplit]
    rw [findSome_append_of_none (probeBios env) pre (dir :: post)
      (fun d hd => by simp [probeBios, hmiss d hd])]
    simp [List.findSome?, probeBios, hhit]
  · intro hmiss
    rw [find_default_bios_eq_findSome]
    exact findSome_eq_none_of_misses (probeBios env) _
      (fun d hd => by simp [probeBios, hmiss d hd])

/-- C9 amended, instantiated: with SEABIOS_DIR unset, nothing under the
bundled pc-bios directory, and bios.bin a regular file in the current
directory, the locator probes the normalized "." entry (second in the
list) and returns ./bios.bin. -/
theorem c9_amended_witness :
    find_default_bios hostCwdBios = some "bios.bin" :=
  (c9_amended hostCwdBios).1 ["/repo/pc-bios"] "."
    ["/home/user/.local/share/seabios", "/usr/share/seabios", "/usr/local/share/seabios"]
    rfl (by decide) (by decide)

/-- C3 counterexample: an OSError raised after a memsize line has been
read makes the parser return the partially filled descriptor, not the
empty one. -/
theorem c3_counterexample :
    parse_vmx_file [] "/vm/a.vmx" (FileRead.fileLines ["memsize = 512"] true)
      = { memsize := some "512", numvcpus := none, disk := none }
    ∧ parse_vmx_file [] "/vm/a.vmx" (FileRead.fileLines ["memsize = 512"] true)
        ≠ Descriptor.empty := by
  exact ⟨rfl, by decide⟩

/-- C3 amended: the parser never raises; a failure of the open call
yields the empty descriptor, while an I/O failure after some lines have
been read yields exactly the partial descriptor accumulated from the
lines read so far (the same mapping a clean read of those lines gives). -/
theorem c3_amended (fs : List String) (p : String) (ls : List String) :
    parse_vmx_file fs p FileRead.openFail = Descriptor.empty
    ∧ parse_vmx_file fs p (FileRead.fileLines ls true)
        = parse_vmx_file fs p (FileRead.fileLines ls false) := by
  refine ⟨rfl, ?_⟩
  unfold parse_vmx_file
  cases h : (parseLines fs (parentDir p) Descriptor.empty ls).2 with
  | none => simp [h, withDiskEntry]
  | some q => simp [h, withDiskEntry]

/-- The accumulated data of the parser loop never carries a disk entry:
the loop only updates memsize and numvcpus; the disk path travels in the
second component. -/
theorem parseLines_fst_disk (fs : List String) (dir : String) :
    ∀ (ls : List String) (d : Descriptor), (parseLines fs dir d ls).1.disk = d.disk := by
  intro ls
  induction ls with
  | nil => intro d; rfl
  | cons line rest ih =>
    intro d
    unfold parseLines
    cases h : lineKV line with
    | none => exact ih d
    | some kv =>
      obtain ⟨k, v⟩ := kv
      by_cases hm : strToLower k = "memsize"
      · simp only [hm, if_pos rfl]
        exact ih _
      · by_cases hn : strToLower k = "numvcpus"
        · simp only [if_neg hm, hn, if_pos rfl]
          exact ih _
        · simp only [if_neg hm, if_neg hn]
          cases hd : diskMatch fs dir k v with
          | some p => rfl
          | none => exact ih d

/-- The disk path the parser loop finds is the first per-line disk match
in line order. -/
theorem parseLines_snd_eq_findSome (fs : List String) (dir : String) :
    ∀ (ls : List String) (d : Descriptor),
      (parseLines fs dir d ls).2 = ls.findSome? (lineDisk fs dir) := by
  intro ls
  induction ls with
  | nil => intro d; rfl
  | cons line rest ih =>
    intro d
    rw [List.findSome?_cons]
    unfold parseLines lineDisk
    cases h : lineKV line with
    | none => exact ih d
    | some kv =>
      obtain ⟨k, v⟩ := kv
      by_cases hm : strToLower k = "memsize"
      · simp only [if_pos hm]
        exact ih _
      · by_cases hn : strToLower k = "numvcpus"
        · simp only [if_neg hm, if_pos hn]
          exact ih _
        · simp only [if_neg hm, if_neg hn]
          cases hd : diskMatch fs dir k v with
          | some p => rfl
          | none => exact ih d

/-- The disk entry written into a dict that has none is exactly the
found path. -/
theorem withDiskEntry_disk (d : Descriptor) (o : Option String) (h : d.disk = none) :
    (withDiskEntry d o).disk = o := by
  cases o with
  | none => exact h
  | some q => rfl

/-- C7: the disk reference a clean parse extracts is the first per-line
match in line order (key ending in ".fileName", extension on the
allow-list after lower-casing, resolved path existing), even when later
lines also match; and once a line matches, the parser loop ignores every
later line (scanning stops at the first match). -/
theorem c7_first_match (fs : List String) (p : String) (ls : List String)
    (d : Descriptor) (line : String) (rest : List String) :
    (parse_vmx_file fs p (FileRead.fileLines ls false)).disk
        = ls.findSome? (lineDisk fs (parentDir p))
    ∧ ((lineDisk fs (parentDir p) line).isSome = true →
        parseLines fs (parentDir p) d (line :: rest) = parseLines fs (parentDir p) d [line]) := by
  constructor
  · unfold parse_vmx_file
    rw [← parseLines_snd_eq_findSome fs (parentDir p) ls Descriptor.empty]
    exact withDiskEntry_disk _ _ (parseLines_fst_disk fs (parentDir p) ls Descriptor.empty)
  · intro hs
    unfold lineDisk at hs
    unfold parseLines
    cases h : lineKV line with
    | none => simp only [h, Option.isSome_none, Bool.false_eq_true] at hs
    | some kv =>
      obtain ⟨k, v⟩ := kv
      by_cases hm : strToLower k = "memsize"
      · simp only [h, if_pos hm, Option.isSome_none, Bool.false_eq_true] at hs
      · by_cases hn : strToLower k = "numvcpus"
        · simp only [h, if_neg hm, if_pos hn, Option.isSome_none, Bool.false_eq_true] at hs
        · simp only [if_neg hm, if_neg hn]
          cases hd : diskMatch fs (parentDir p) k v with
          | none => simp only [h, if_neg hm, if_neg hn, hd, Option.isSome_none,
              Bool.false_eq_true] at hs
          | some q => rfl

/-- Filesystem with two disk images next to the descriptor, used for the
first-match instantiation. -/
def fsTwoDisks : List String := ["/vm/first.qcow2", "/vm/second.img"]

/-- A fileName line referring to first.qcow2. -/
def lineFirstDisk : String := "scsi0:0.fileName = \"first.qcow2\""

/-- A later fileName line referring to second.img, which also matches. -/
def lineSecondDisk : String := "ide0:0.fileName = \"second.img\""

/-- C7 instantiated: with two matching fileName lines, the extracted disk
is the first one, and the loop's run on both lines equals its run on the
first alone. -/
theorem c7_first_match_witness :
    (parse_vmx_file fsTwoDisks "/vm/a.vmx"
        (FileRead.fileLines [lineFirstDisk, lineSecondDisk] false)).disk
      = List.findSome? (lineDisk fsTwoDisks "/vm") [lineFirstDisk, lineSecondDisk]
    ∧ parseLines fsTwoDisks "/vm" Descriptor.empty [lineFirstDisk, lineSecondDisk]
        = parseLines fsTwoDisks "/vm" Descriptor.empty [lineFirstDisk] :=
  ⟨(c7_first_match fsTwoDisks "/vm/a.vmx" [lineFirstDisk, lineSecondDisk]
      Descriptor.empty lineFirstDisk [lineSecondDisk]).1,
   (c7_first_match fsTwoDisks "/vm/a.vmx" [lineFirstDisk, lineSecondDisk]
      Descriptor.empty lineFirstDisk [lineSecondDisk]).2 (by decide)⟩

/-- A benign set of raw fields: a bare binary name (resolved later via
PATH), no disk, no bios, integer memory and vCPU entries. -/
def fieldsIdle : Fields :=
  { binaryVar := "bemu", diskVar := "", memoryVar := some 2048, cpusVar := some 2,
    cpuModelVar := "v4004", machineVar := "q35", biosVar := "" }

/-- A manager state holding a live child process. -/
def runningState : MgrState :=
  { vmProcess := some { pid := 7, exitCode := none }, stopEventSet := false,
    fields := fieldsIdle, statusVar := "VM running" }

/-- C2: a start request while the held process is still running is
rejected with the already-running notification, the whole state (process
handle, stop flag, every configuration field, status text) is unchanged,
and no spawn event occurs, whatever spawn outcome the host would have
produced. -/
theorem c2_already_running_rejected (env : HostEnv) (s : MgrState) (outcome : SpawnOutcome)
    (h : procRunning s = true) :
    start_vm env s outcome = (s, [Event.info "VM Running" "The VM is already running"]) := by
  unfold start_vm
  simp [h]

/-- C2 instantiated: starting over a live process leaves the state
untouched and produces only the notification. -/
theorem c2_already_running_witness :
    start_vm hostEmpty runningState (SpawnOutcome.ok { pid := 9, exitCode := none })
      = (runningState, [Event.info "VM Running" "The VM is already running"]) :=
  c2_already_running_rejected hostEmpty runningState
    (SpawnOutcome.ok { pid := 9, exitCode := none }) rfl

/-- The finalize-stop callback leaves a still-running state unchanged and
only reschedules itself: after n firings nothing but reschedule events
have happened. -/
theorem iterFinalize_running (s : MgrState) (h : procRunning s = true) :
    ∀ n : Nat, iterFinalize s n = (s, List.replicate n Event.scheduleFinalize) := by
  intro n
  induction n with
  | zero => rfl
  | succ n ih =>
    unfold iterFinalize finalize_stop
    simp [h, ih, List.replicate_succ]

/-- Reschedule events carry no signal. -/
theorem signalsSent_replicate (n : Nat) :
    signalsSent (List.replicate n Event.scheduleFinalize) = [] := by
  induction n with
  | zero => rfl
  | succ n ih => simp [List.replicate_succ, signalsSent, ih]

/-- C1 counterexample: stopping a running VM whose child never exits
delivers the graceful SIGINT and then, across one hundred grace
intervals, never a forceful signal: the finalize callback only
reschedules itself, so no escalation to termination ever happens. -/
theorem c1_counterexample :
    procRunning runningState = true
    ∧ signalsSent (stopRun runningState true 100).2 = [Sig.sigint]
    ∧ Sig.sigterm ∉ signalsSent (stopRun runningState true 100).2 := by
  refine ⟨rfl, by decide, by decide⟩

/-- C1 amended: for a stop request on a running VM whose child stays
alive arbitrarily long, the only signal ever delivered is the initial
one: SIGINT when send_signal succeeds, or the immediate terminate
fallback when send_signal raises; the grace-interval callback never
escalates, it only polls until the child exits. -/
theorem c1_amended (s : MgrState) (sigintOk : Bool) (n : Nat)
    (h : procRunning s = true) :
    signalsSent (stopRun s sigintOk n).2
      = (if sigintOk then [Sig.sigint] else [Sig.sigterm]) := by
  have h2 : procRunning { s with statusVar := "Stopping VM...", stopEventSet := true } = true := by
    simpa [procRunning] using h
  unfold stopRun stop_vm
  cases sigintOk <;>
    simp [h, h2, iterFinalize_running _ h2, signalsSent, signalsSent_replicate,
      List.filterMap_append, signalsSent_replicate n]

/-- C1 amended, instantiated: when send_signal raises, the fallback
terminate is the one signal sent, and three further grace intervals add
nothing. -/
theorem c1_amended_witness :
    signalsSent (stopRun runningState false 3).2 = [Sig.sigterm] := by
  have h := c1_amended runningState false 3 rfl
  simpa using h

/-- Raw fields naming a path-qualified binary that will not exist on the
empty host. -/
def fieldsBadBin : Fields :=
  { binaryVar := "/opt/bemu/bemu", diskVar := "", memoryVar := some 2048, cpusVar := some 2,
    cpuModelVar := "v4004", machineVar := "q35", biosVar := "" }

/-- A manager at rest: no process held. -/
def idleStateBadBin : MgrState :=
  { vmProcess := none, stopEventSet := false, fields := fieldsBadBin, statusVar := "Ready" }

/-- C4: a start request that reaches validation (no process running,
integer fields readable) with an executable field containing a path
separator and naming a non-existent path is rejected with the
binary-does-not-exist dialog; the state (including the status text and
the process handle) is unchanged and no spawn event occurs. -/
theorem c4_exec_not_found (env : HostEnv) (s : MgrState) (outcome : SpawnOutcome)
    (m c : Int)
    (hrun : procRunning s = false)
    (hm : s.fields.memoryVar = some m)
    (hc : s.fields.cpusVar = some c)
    (hnb : pyStrip s.fields.binaryVar ≠ "")
    (hsep : strContainsChar (pyStrip s.fields.binaryVar) '/' = true)
    (hex : expandUser env.home (pyStrip s.fields.binaryVar) ∉ env.fs) :
    start_vm env s outcome =
      (s, [Event.showError "Invalid Configuration"
            ("BEMU binary '" ++ expandUser env.home (pyStrip s.fields.binaryVar)
              ++ "' does not exist")]) := by
  unfold start_vm build_config
  simp [hrun, hm, hc, hnb, hsep, hex]

/-- C4 instantiated: starting with binary /opt/bemu/bemu on a host where
it does not exist yields exactly the rejection dialog and no change. -/
theorem c4_exec_not_found_witness :
    start_vm hostEmpty idleStateBadBin (SpawnOutcome.ok { pid := 9, exitCode := none })
      = (idleStateBadBin,
         [Event.showError "Invalid Configuration"
           "BEMU binary '/opt/bemu/bemu' does not exist"]) :=
  c4_exec_not_found hostEmpty idleStateBadBin (SpawnOutcome.ok { pid := 9, exitCode := none })
    2048 2 rfl rfl rfl (by decide) (by decide) (by decide)

/-- Fields a successful build always carries: the memory and vCPU ints
read from the widgets verbatim, and the cpu model / machine strings
produced by the two (asymmetric) fallbacks in the source. -/
theorem build_config_ok_fields (env : HostEnv) (f : Fields) (c : VMConfig)
    (h : build_config env f = ConfigResult.ok c) :
    f.memoryVar = some c.memory_mb
    ∧ f.cpusVar = some c.cpu_count
    ∧ c.cpu_model = (if pyStrip f.cpuModelVar = "" then DEFAULT_CPU_NAME else pyStrip f.cpuModelVar)
    ∧ c.machine = (if f.machineVar = "" then DEFAULT_MACHINE else f.machineVar) := by
  unfold build_config at h
  cases hmv : f.memoryVar with
  | none => rw [hmv] at h; exact absurd h (by simp)
  | some m =>
    cases hcv : f.cpusVar with
    | none => rw [hmv, hcv] at h; exact absurd h (by simp)
    | some cv =>
      simp only [hmv, hcv] at h
      unfold buildConfigBios at h
      set cm := (if pyStrip f.cpuModelVar = "" then DEFAULT_CPU_NAME else pyStrip f.cpuModelVar)
        with hcmdef
      set mc := (if f.machineVar = "" then DEFAULT_MACHINE else f.machineVar) with hmcdef
      repeat' first
        | (injection h with h; subst h; exact ⟨rfl, rfl, rfl, rfl⟩)
        | (injection h)
        | (split at h)
        | simp at h

/-- Fields whose memory entry is zero: the widgets allow typing any
integer, and validation parses without checking positivity. -/
def fieldsZeroMem : Fields :=
  { binaryVar := "bemu", diskVar := "", memoryVar := some 0, cpusVar := some 2,
    cpuModelVar := "v4004", machineVar := "q35", biosVar := "" }

/-- The configuration validation constructs from fieldsZeroMem. -/
def cfgZeroMem : VMConfig :=
  { binary := "bemu", disk_image := none, memory_mb := 0, cpu_count := 2,
    cpu_model := "v4004", bios := none, machine := "q35" }

/-- C6 counterexample: validation happily constructs a VMConfig with a
non-positive memory size; no positivity check exists in build_config. -/
theorem c6_counterexample :
    build_config hostEmpty fieldsZeroMem = ConfigResult.ok cfgZeroMem
    ∧ ¬(0 < cfgZeroMem.memory_mb) :=
  ⟨rfl, by decide⟩

/-- C6 amended: every VMConfig validation constructs carries a non-empty
cpu model string and a non-empty machine string, and carries the memory
and vCPU integers read from the fields verbatim; positivity of memory
and vCPU count is not enforced. -/
theorem c6_amended (env : HostEnv) (f : Fields) (c : VMConfig)
    (h : build_config env f = ConfigResult.ok c) :
    c.cpu_model ≠ "" ∧ c.machine ≠ ""
    ∧ f.memoryVar = some c.memory_mb ∧ f.cpusVar = some c.cpu_count := by
  obtain ⟨h1, h2, h3, h4⟩ := build_config_ok_fields env f c h
  refine ⟨?_, ?_, h1, h2⟩
  · rw [h3]
    split
    · decide
    · assumption
  · rw [h4]
    split
    · decide
    · assumption

/-- The configuration built from the benign fieldsIdle. -/
def cfgDefaults : VMConfig :=
  { binary := "bemu", disk_image := none, memory_mb := 2048, cpu_count := 2,
    cpu_model := "v4004", bios := none, machine := "q35" }

/-- C6 amended, instantiated at a successful build. -/
theorem c6_amended_witness :
    cfgDefaults.cpu_model ≠ "" ∧ cfgDefaults.machine ≠ ""
    ∧ fieldsIdle.memoryVar = some cfgDefaults.memory_mb
    ∧ fieldsIdle.cpusVar = some cfgDefaults.cpu_count :=
  c6_amended hostEmpty fieldsIdle cfgDefaults rfl

/-- Fields whose machine entry is a single space: blank after trimming
but non-empty, so the source's or-fallback does not fire. -/
def fieldsBlankMachine : Fields :=
  { binaryVar := "bemu", diskVar := "", memoryVar := some 2048, cpusVar := some 2,
    cpuModelVar := "v4004", machineVar := " ", biosVar := "" }

/-- C8 counterexample: a machine field that is whitespace-only (blank
after trimming) is kept verbatim in the constructed VMConfig instead of
falling back to the default machine constant: the source applies no strip
to the machine value. -/
theorem c8_counterexample :
    pyStrip " " = ""
    ∧ configMachine (build_config hostEmpty fieldsBlankMachine) = some " "
    ∧ DEFAULT_MACHINE ≠ " " :=
  ⟨rfl, rfl, by decide⟩

/-- C8 amended: in a constructed VMConfig, the cpu model falls back to
its default exactly when the raw field is blank after trimming, while the
machine type falls back to its default only when the raw field is the
empty string; a non-empty (even whitespace-only) machine field is kept
verbatim. -/
theorem c8_amended (env : HostEnv) (f : Fields) (c : VMConfig)
    (h : build_config env f = ConfigResult.ok c) :
    (pyStrip f.cpuModelVar = "" → c.cpu_model = DEFAULT_CPU_NAME)
    ∧ (f.machineVar = "" → c.machine = DEFAULT_MACHINE)
    ∧ (f.machineVar ≠ "" → c.machine = f.machineVar) := by
  obtain ⟨_, _, h3, h4⟩ := build_config_ok_fields env f c h
  refine ⟨?_, ?_, ?_⟩
  · intro hcm; rw [h3, if_pos hcm]
  · intro hmv; rw [h4, if_pos hmv]
  · intro hmv; rw [h4, if_neg hmv]

/-- Fields with a whitespace-only cpu model and an empty machine entry. -/
def fieldsBlankBoth : Fields :=
  { binaryVar := "bemu", diskVar := "", memoryVar := some 2048, cpusVar := some 2,
    cpuModelVar := " ", machineVar := "", biosVar := "" }

/-- C8 amended, instantiated: both fallbacks fire on fieldsBlankBoth. -/
theorem c8_amended_witness :
    cfgDefaults.cpu_model = DEFAULT_CPU_NAME ∧ cfgDefaults.machine = DEFAULT_MACHINE :=
  ⟨(c8_amended hostEmpty fieldsBlankBoth cfgDefaults rfl).1 (by decide),
   (c8_amended hostEmpty fieldsBlankBoth cfgDefaults rfl).2.1 rfl⟩

/-- Merging a numeric descriptor entry never turns a present widget value
into an absent one. -/
theorem mergeNumeric_isSome (cur : Option Int) (raw : Option String)
    (h : cur.isSome = true) : (mergeNumeric cur raw).isSome = true := by
  cases raw with
  | none => exact h
  | some s =>
    simp only [mergeNumeric]
    cases hp : pyIntOfString s with
    | none => exact h
    | some v => rfl

/-- What loading a descriptor leaves in the fields: the binary, bios,
cpu model and machine entries are untouched; when the parse found no
disk, the disk entry becomes the VMX path itself; a present memory or
vCPU entry stays present. -/
theorem apply_vmx_core (env : HostEnv) (f : Fields) (vmxPath : String) (read : FileRead) :
    (apply_vmx_config env f vmxPath read).1.binaryVar = f.binaryVar
    ∧ (apply_vmx_config env f vmxPath read).1.biosVar = f.biosVar
    ∧ (apply_vmx_config env f vmxPath read).1.cpuModelVar = f.cpuModelVar
    ∧ (apply_vmx_config env f vmxPath read).1.machineVar = f.machineVar
    ∧ ((parse_vmx_file env.fs vmxPath read).disk = none →
        (apply_vmx_config env f vmxPath read).1.diskVar = vmxPath)
    ∧ (f.memoryVar.isSome = true →
        (apply_vmx_config env f vmxPath read).1.memoryVar.isSome = true)
    ∧ (f.cpusVar.isSome = true →
        (apply_vmx_config env f vmxPath read).1.cpusVar.isSome = true) := by
  simp only [apply_vmx_config]
  cases hd : (parse_vmx_file env.fs vmxPath read).disk with
  | none =>
    refine ⟨rfl, rfl, rfl, rfl, fun _ => rfl, fun h => ?_, fun h => ?_⟩
    · exact mergeNumeric_isSome _ _ h
    · exact mergeNumeric_isSome _ _ h
  | some q =>
    refine ⟨rfl, rfl, rfl, rfl, fun hc => ?_, fun h => ?_, fun h => ?_⟩
    · exact absurd hc (by simp)
    · exact mergeNumeric_isSome _ _ h
    · exact mergeNumeric_isSome _ _ h

/-- C10: when loading a descriptor whose parse yields no disk reference,
the disk field is set to the descriptor file's own path (not left
unchanged or cleared); consequently, with the rest of the form benign (a
bare binary name, readable integer fields, no bios entry) and the VMX
file present on disk and unaffected by user expansion, validation accepts
the fields and the constructed configuration attaches the VMX path itself
as the disk image. -/
theorem c10_vmx_fallback (env : HostEnv) (f : Fields) (vmxPath : String) (read : FileRead)
    (hdisk : (parse_vmx_file env.fs vmxPath read).disk = none)
    (hb : f.binaryVar = "bemu")
    (hbios : f.biosVar = "")
    (hm : f.memoryVar.isSome = true)
    (hc : f.cpusVar.isSome = true)
    (hne : ¬(vmxPath = ""))
    (hexp : expandUser env.home vmxPath = vmxPath)
    (hfs : vmxPath ∈ env.fs) :
    (apply_vmx_config env f vmxPath read).1.diskVar = vmxPath
    ∧ configDisk (build_config env (apply_vmx_config env f vmxPath read).1)
        = some (some vmxPath) := by
  obtain ⟨hbv, hbsv, _, _, hdv, hmemS, hcpuS⟩ := apply_vmx_core env f vmxPath read
  have hdvx := hdv hdisk
  refine ⟨hdvx, ?_⟩
  obtain ⟨m, hm2⟩ := Option.isSome_iff_exists.mp (hmemS hm)
  obtain ⟨cv, hc2⟩ := Option.isSome_iff_exists.mp (hcpuS hc)
  have h1 : pyStrip "bemu" = "bemu" := rfl
  have h3 : strContainsChar "bemu" '/' = false := rfl
  simp [build_config, buildConfigBios, configDisk, hm2, hc2, hbv, hb, hbsv, hbios,
    hdvx, hexp, hfs, hne, h1, h3]

/-- Host on which only the descriptor file itself exists. -/
def envVmx : HostEnv :=
  { fs := ["/vm/guest.vmx"], filePaths := [], home := "/home/user", seabiosDir := "",
    srcRoot := "/repo" }

/-- C10 instantiated: an empty descriptor parse falls back to the VMX
path and the built configuration attaches that path as the disk. -/
theorem c10_vmx_fallback_witness :
    (apply_vmx_config envVmx fieldsIdle "/vm/guest.vmx" (FileRead.fileLines [] false)).1.diskVar
      = "/vm/guest.vmx"
    ∧ configDisk (build_config envVmx
        (apply_vmx_config envVmx fieldsIdle "/vm/guest.vmx" (FileRead.fileLines [] false)).1)
      = some (some "/vm/guest.vmx") :=
  c10_vmx_fallback envVmx fieldsIdle "/vm/guest.vmx" (FileRead.fileLines [] false)
    rfl rfl rfl rfl rfl (by decide) rfl (by decide)
